import Mathlib

/-
  Verification of the `GCPLoggingQueryApp` orchestration class (src/main.py)
  of the CloudProbe repository.

  The class wraps three external services: a credential/logging SDK
  (`google.oauth2.service_account`, `google.cloud.logging`), a generative
  text API (`google.generativeai`), and a UI layer (`streamlit`).  The
  external services are modelled as environments (records of functions that
  may fail with an exception message); `st.error` calls are modelled as a
  list of reported error messages; the CSV side effect and the calls made to
  the external services are modelled as explicit traces in the results.

  Machine-checked claims are stated at the end of the file.
-/

/-- A parsed JSON value, as produced by Python's `json.loads`.  Numbers are
modelled as integers (no claim depends on floats). -/
inductive Json where
  | null : Json
  | bool (b : Bool) : Json
  | num (n : Int) : Json
  | str (s : String) : Json
  | arr (elems : List Json) : Json
  | obj (fields : List (String × Json)) : Json

/-- First-match association-list lookup, the semantics of indexing a Python
dict whose keys are strings (parsed JSON objects have no duplicate keys). -/
def assocLookup {β : Type} (key : String) : List (String × β) → Option β
  | [] => none
  | (k, v) :: rest => if k = key then some v else assocLookup key rest

/-- Python substring test `pat in s` for strings. -/
def strContains (s pat : String) : Bool :=
  if pat = "" then true else (s.splitOn pat).length > 1

/-- Python membership test `field in j` on a parsed JSON value: key test on
dicts, element test on lists, substring test on strings, and a `TypeError`
(the `Except.error` case) on numbers, booleans and `None`. -/
def jsonContains (j : Json) (field : String) : Except String Bool :=
  match j with
  | .obj fields => .ok (assocLookup field fields).isSome
  | .arr xs => .ok (xs.any fun x => match x with | .str s => s == field | _ => false)
  | .str s => .ok (strContains s field)
  | .num _ => .error "argument of type \x27int\x27 is not iterable"
  | .bool _ => .error "argument of type \x27bool\x27 is not iterable"
  | .null => .error "argument of type \x27NoneType\x27 is not iterable"

/-- Python indexing `j[key]` with a string key on a parsed JSON value:
lookup on dicts (`KeyError` when absent), `TypeError` on everything else. -/
def jsonIndex (j : Json) (key : String) : Except String Json :=
  match j with
  | .obj fields =>
    match assocLookup key fields with
    | some v => .ok v
    | none => .error ("KeyError: " ++ key)
  | .arr _ => .error "list indices must be integers or slices, not str"
  | .str _ => .error "string indices must be integers"
  | .num _ => .error "\x27int\x27 object is not subscriptable"
  | .bool _ => .error "\x27bool\x27 object is not subscriptable"
  | .null => .error "\x27NoneType\x27 object is not subscriptable"

/-- The `required_fields` list of `validate_and_set_credentials` (src/main.py:51). -/
def required_fields : List String :=
  ["type", "project_id", "client_id", "client_email", "private_key"]

/-- Opaque result of `service_account.Credentials.from_service_account_info`;
it carries the info it was built from. -/
structure SACredentials where
  info : Json

/-- Opaque result of `google.cloud.logging.Client(credentials=..., project=...)`. -/
structure LoggingClient where
  creds : SACredentials
  project : Json

/-- The mutable state of a `GCPLoggingQueryApp` object (src/main.py:39-42). -/
structure AppState where
  logging_client : Option LoggingClient
  credentials : Option SACredentials
  project_id : Option Json

/-- State built by `GCPLoggingQueryApp.__init__`: all three fields start as `None`. -/
def initState : AppState := ⟨none, none, none⟩

/-- Environment for the credential path: `json.loads` (`none` models a
`JSONDecodeError`), `from_service_account_info` and the `logging.Client`
constructor (each may raise, with a message). -/
structure SdkEnv where
  parseJson : String → Option Json
  from_service_account_info : Json → Except String SACredentials
  mkClient : SACredentials → Json → Except String LoggingClient

/-- Result of `validate_and_set_credentials`: the state after the call, the
returned boolean, and the messages reported through `st.error`. -/
structure ValidateResult where
  state : AppState
  ok : Bool
  errors : List String

/-- The `for field in required_fields` loop body of
`validate_and_set_credentials` (src/main.py:52-55): the first field whose
membership test is `False`, or a `TypeError` raised by the membership test
itself. -/
def findMissingFieldAux (j : Json) : List String → Except String (Option String)
  | [] => .ok none
  | f :: rest =>
    match jsonContains j f with
    | .error m => .error m
    | .ok true => findMissingFieldAux j rest
    | .ok false => .ok (some f)

/-- The required-field scan over `required_fields`. -/
def findMissingField (j : Json) : Except String (Option String) :=
  findMissingFieldAux j required_fields

/-- The method `GCPLoggingQueryApp.validate_and_set_credentials` (src/main.py:44-78).
Mutations happen in source order: `self.credentials` is set once
`from_service_account_info` returns, `self.project_id` once the indexing
succeeds, `self.logging_client` once the client constructor returns; any
caught exception reports a message and returns `False`. -/
def validate_and_set_credentials (env : SdkEnv) (st : AppState)
    (credentials_json : String) : ValidateResult :=
  match env.parseJson credentials_json with
  | none => ⟨st, false, ["Invalid JSON format in credentials"]⟩
  | some credentials_data =>
    match findMissingField credentials_data with
    | .error m => ⟨st, false, ["Error setting up credentials: " ++ m]⟩
    | .ok (some field) => ⟨st, false, ["Missing required field: " ++ field]⟩
    | .ok none =>
      match env.from_service_account_info credentials_data with
      | .error m => ⟨st, false, ["Error setting up credentials: " ++ m]⟩
      | .ok creds =>
        match jsonIndex credentials_data "project_id" with
        | .error m =>
          ⟨{ st with credentials := some creds }, false,
            ["Error setting up credentials: " ++ m]⟩
        | .ok pid =>
          match env.mkClient creds pid with
          | .error m =>
            ⟨{ st with credentials := some creds, project_id := some pid },
              false, ["Error setting up credentials: " ++ m]⟩
          | .ok client =>
            ⟨{ st with credentials := some creds, project_id := some pid, logging_client := some client }, true, []⟩

/-- An object returned by `genai.GenerativeModel(model_name)`. -/
structure GModel where
  name : String

/-- A response returned by `model.generate_content(prompt)`. -/
structure GResponse where
  text : String

/-- One call made to the generative-text service. -/
inductive GenAICall where
  | configureCall (api_key : String) : GenAICall
  | getModelCall (model_name : String) : GenAICall
  | generateCall (prompt : String) : GenAICall

/-- Environment for the generative-text service: `genai.configure`,
`genai.GenerativeModel` and `model.generate_content`, each of which may
raise with a message. -/
structure GenAIEnv where
  configure : String → Except String Unit
  getGenerativeModel : String → Except String GModel
  generate_content : GModel → String → Except String GResponse

/-- The f-string prompt template of `generate_logging_query`
(src/main.py:88-115). -/
def queryPrompt (user_question : String) : String :=
  "\n            You are an expert in Google Cloud Logging queries. Generate a Cloud Logging query based on the user\x27s question.\n\n            User Question: " ++ user_question ++ "\n\n            Guidelines:\n            1. Use proper Cloud Logging query syntax\n            2. Include relevant resource types (like gce_instance, dataflow_job, etc.)\n            3. Use appropriate time filters (today means last 24 hours)\n            4. Include severity levels when relevant\n            5. For cost queries, look for billing or cost-related logs\n            6. For failure queries, look for ERROR severity or specific error messages\n            7. Return ONLY the query string, no explanations\n            8. do not use syntax like timestamp >= \"now-24h\" give proper timestamp value\n\n            Common resource types:\n            - dataflow_job (for Dataflow jobs)\n            - gce_instance (for Compute Engine)\n            - cloud_function (for Cloud Functions)\n            - gke_cluster (for GKE)\n            - cloud_sql_database (for Cloud SQL)\n\n            Examples:\n            - For failed Dataflow jobs today: resource.type=\"dataflow_job\" AND severity=\"ERROR\" AND timestamp>=\"2024-01-01T00:00:00Z\"\n            - For cost information: resource.type=\"billing_account\" OR jsonPayload.cost EXISTS\n\n            Generate the query:\n            "

/-- Result of `generate_logging_query`: the returned string, the messages
reported through `st.error`, and the calls made to the service. -/
structure GenQueryResult where
  text : String
  errors : List String
  calls : List GenAICall

/-- The method `GCPLoggingQueryApp.generate_logging_query` (src/main.py:80-122): on
success it returns `response.text.strip()`; any caught exception reports a
message and returns the empty string. -/
def generate_logging_query (env : GenAIEnv) (user_question gemini_api_key : String) :
    GenQueryResult :=
  match env.configure gemini_api_key with
  | .error m =>
    ⟨"", ["Error generating query with Gemini: " ++ m],
      [.configureCall gemini_api_key]⟩
  | .ok _ =>
    match env.getGenerativeModel "gemini-1.5-flash" with
    | .error m =>
      ⟨"", ["Error generating query with Gemini: " ++ m],
        [.configureCall gemini_api_key, .getModelCall "gemini-1.5-flash"]⟩
    | .ok model =>
      match env.generate_content model (queryPrompt user_question) with
      | .error m =>
        ⟨"", ["Error generating query with Gemini: " ++ m],
          [.configureCall gemini_api_key, .getModelCall "gemini-1.5-flash",
           .generateCall (queryPrompt user_question)]⟩
      | .ok response =>
        ⟨response.text.trim, [],
          [.configureCall gemini_api_key, .getModelCall "gemini-1.5-flash",
           .generateCall (queryPrompt user_question)]⟩

/-- The `resource` attribute of an SDK log entry. -/
structure LogResource where
  type : String

/-- The `payload` attribute of an SDK log entry: a dict-like payload (has
`get` and `items`), a plain string payload (has neither), or `None`. -/
inductive Payload where
  | dictP (fields : List (String × Json)) : Payload
  | strP (s : String) : Payload
  | nullP : Payload

/-- An SDK log entry as consumed by `execute_logging_query`: `timestamp` is
the `isoformat()` rendering of the entry's datetime when present,
`severity` is the raw optional severity string, `labels` the optional label
dict. -/
structure LogEntry where
  timestamp : Option String
  severity : Option String
  resource : Option LogResource
  log_name : String
  payload : Payload
  labels : Option (List (String × String))

mutual

/-- Python `repr` of a value parsed from JSON (single-quoted strings,
`True`/`False`/`None`, list and dict displays). -/
def pyReprJ : Json → String
  | .null => "None"
  | .bool b => if b then "True" else "False"
  | .num n => toString n
  | .str s => "\x27" ++ s ++ "\x27"
  | .arr xs => "[" ++ pyReprList xs ++ "]"
  | .obj fs => "\x7b" ++ pyReprFields fs ++ "\x7d"

/-- Python `repr` of the elements of a list, comma separated. -/
def pyReprList : List Json → String
  | [] => ""
  | [x] => pyReprJ x
  | x :: y :: rest => pyReprJ x ++ ", " ++ pyReprList (y :: rest)

/-- Python `repr` of the items of a dict, comma separated. -/
def pyReprFields : List (String × Json) → String
  | [] => ""
  | [(k, v)] => "\x27" ++ k ++ "\x27: " ++ pyReprJ v
  | (k, v) :: y :: rest =>
    "\x27" ++ k ++ "\x27: " ++ pyReprJ v ++ ", " ++ pyReprFields (y :: rest)

end

/-- Python `str` of a value parsed from JSON: the string itself for strings,
`repr` for everything else. -/
def pyStr : Json → String
  | .str s => s
  | j => pyReprJ j

/-- Python `str(dict(...))` of a string-to-string dict. -/
def pyStrStrDict (l : List (String × String)) : String :=
  pyReprJ (.obj (l.map fun p => (p.1, .str p.2)))

/-- The dictionary built for one log entry by `execute_logging_query`
(src/main.py:141-149).  `severity` is copied raw (Python `None` stays
`None`); `text_payload` is `payload.get('message','')`, which can be any
JSON value when the payload is a dict. -/
structure EntryDict where
  timestamp : String
  severity : Option String
  resource_type : String
  log_name : String
  text_payload : Json
  json_payload : String
  labels : String

/-- The entry-to-dict conversion in the loop of `execute_logging_query`
(src/main.py:140-150). -/
def entryToDict (entry : LogEntry) : EntryDict :=
  { timestamp := match entry.timestamp with | some t => t | none => ""
  , severity := entry.severity
  , resource_type := match entry.resource with | some r => r.type | none => ""
  , log_name := entry.log_name
  , text_payload :=
      match entry.payload with
      | .dictP fields =>
        match assocLookup "message" fields with
        | some v => v
        | none => .str ""
      | .strP s => .str s
      | .nullP => .str "None"
  , json_payload :=
      match entry.payload with
      | .dictP fields => pyReprJ (.obj fields)
      | .strP _ => ""
      | .nullP => ""
  , labels :=
      match entry.labels with
      | some l => if l.isEmpty then "" else pyStrStrDict l
      | none => "" }

/-- The items of an entry dict in insertion order, with Python values
rendered as JSON values (`None` becomes `null`). -/
def entryDictItems (d : EntryDict) : List (String × Json) :=
  [ ("timestamp", .str d.timestamp)
  , ("severity", match d.severity with | some s => .str s | none => .null)
  , ("resource_type", .str d.resource_type)
  , ("log_name", .str d.log_name)
  , ("text_payload", d.text_payload)
  , ("json_payload", .str d.json_payload)
  , ("labels", .str d.labels) ]

/-- Whether a Python value, rendered as JSON, is a string. -/
def jsonIsStr : Json → Bool
  | .str _ => true
  | _ => false

/-- Whether `payload.get('message','')` yields a string for this payload. -/
def payloadMessageIsStr : Payload → Bool
  | .dictP fields =>
    match assocLookup "message" fields with
    | some v => jsonIsStr v
    | none => true
  | .strP _ => true
  | .nullP => true

/-- The seven keys of an entry dict, `results[0].keys()` in source order. -/
def fieldnames : List String :=
  ["timestamp", "severity", "resource_type", "log_name", "text_payload",
   "json_payload", "labels"]

/-- A CSV row written by `csv.DictWriter.writerows`: `None` is written as
the empty string, any other value through `str`. -/
def csvRow (d : EntryDict) : List String :=
  [ d.timestamp
  , match d.severity with | some s => s | none => ""
  , d.resource_type
  , d.log_name
  , pyStr d.text_payload
  , d.json_payload
  , d.labels ]

/-- The state of the local file `my_dict.csv` after a call: untouched, or
opened in write mode (previous contents discarded) with the given rows
written (no rows at all when the result list was empty). -/
inductive CsvFile where
  | untouched : CsvFile
  | overwritten (rows : List (List String)) : CsvFile

/-- Environment for the log-query service: `logging_client.list_entries`
(with the filter string and `max_results`; `order_by` is the constant
`logging.DESCENDING`), which may raise. -/
structure LoggingEnv where
  list_entries : String → Nat → Except String (List LogEntry)

/-- Result of `execute_logging_query`: the returned list, the messages
reported through `st.error`, the state of `my_dict.csv`, and the calls made
to the log-query service. -/
structure ExecResult where
  results : List EntryDict
  errors : List String
  file : CsvFile
  queries : List (String × Nat)

/-- The method `GCPLoggingQueryApp.execute_logging_query` (src/main.py:124-164); the
source default for `max_results` is 100.  With an uninitialized client it
reports and returns `[]` before calling the service or opening the file;
otherwise the file is opened in write mode and, when the result list is
non-empty, a header row (`results[0].keys()`) and one row per entry are
written. -/
def execute_logging_query (env : LoggingEnv) (st : AppState)
    (query_string : String) (max_results : Nat) : ExecResult :=
  match st.logging_client with
  | none => ⟨[], ["Logging client not initialized"], .untouched, []⟩
  | some _ =>
    match env.list_entries query_string max_results with
    | .error m =>
      ⟨[], ["Error executing query: " ++ m], .untouched,
        [(query_string, max_results)]⟩
    | .ok entries =>
      match entries.map entryToDict with
      | [] => ⟨[], [], .overwritten [], [(query_string, max_results)]⟩
      | r :: rs =>
        ⟨r :: rs, [],
          .overwritten ((entryDictItems r).map Prod.fst :: (r :: rs).map csvRow),
          [(query_string, max_results)]⟩


/-- One step of `d[k] = d.get(k, 0) + 1` on a Python dict rendered as an
association list in insertion order: increment in place, or append a new
key at the end. -/
def countsUpsert {α : Type} [DecidableEq α] (key : α) :
    List (α × Nat) → List (α × Nat)
  | [] => [(key, 1)]
  | (k, n) :: rest =>
    if k = key then (k, n + 1) :: rest else (k, n) :: countsUpsert key rest

/-- The total of a counts dict. -/
def countsSum {α : Type} (l : List (α × Nat)) : Nat :=
  (l.map Prod.snd).sum

/-- The `severity_counts` dict built by the counting loop of
`analyze_results` (src/main.py:188-193).  The key is
`result.get('severity', 'UNKNOWN')`; the `severity` key is always present
in an entry dict, so the key is the raw (possibly `None`) severity. -/
def severityCounts (results : List EntryDict) : List (Option String × Nat) :=
  results.foldl (fun acc r => countsUpsert r.severity acc) []

/-- The `resource_types` dict built by the same loop. -/
def resourceTypeCounts (results : List EntryDict) : List (String × Nat) :=
  results.foldl (fun acc r => countsUpsert r.resource_type acc) []

/-- The generator `r['timestamp'] for r in results if r['timestamp']`: the
timestamps that are truthy, i.e. non-empty. -/
def nonEmptyTimestamps (results : List EntryDict) : List String :=
  results.filterMap fun r =>
    if r.timestamp = "" then none else some r.timestamp

/-- Python `min` over a list of strings (`ValueError`, modelled as `none`,
on an empty list). -/
def listMin : List String → Option String
  | [] => none
  | x :: xs => some (xs.foldl min x)

/-- Python `max` over a list of strings. -/
def listMax : List String → Option String
  | [] => none
  | x :: xs => some (xs.foldl max x)

/-- The `results_summary` dict of `analyze_results` (src/main.py:177-193). -/
structure ResultsSummary where
  total_entries : Nat
  severity_counts : List (Option String × Nat)
  resource_types : List (String × Nat)
  earliest : String
  latest : String

/-- Building the results summary: `min`/`max` range over the non-empty
timestamps only, and raise `ValueError` (the `Except.error` case) when
every timestamp is empty. -/
def results_summary (results : List EntryDict) : Except Unit ResultsSummary :=
  match nonEmptyTimestamps results with
  | [] => .error ()
  | t :: ts =>
    .ok
      { total_entries := results.length
      , severity_counts := severityCounts results
      , resource_types := resourceTypeCounts results
      , earliest := ts.foldl min t
      , latest := ts.foldl max t }

/-- JSON string escaping for `json.dumps` (quotes, backslashes, newlines). -/
def jsonEscapeChar (c : Char) : String :=
  if c = '"' then "\\\"" else
  if c = '\\' then "\\\\" else
  if c = '\n' then "\\n" else String.singleton c

/-- Escape every character of a string for `json.dumps`. -/
def jsonEscape (s : String) : String :=
  s.foldl (fun acc c => acc ++ jsonEscapeChar c) ""

mutual

/-- Python `json.dumps` of a JSON value (serialization modelled without the
`indent=2` whitespace; no claim depends on the rendered text). -/
def jsonDumps : Json → String
  | .null => "null"
  | .bool b => if b then "true" else "false"
  | .num n => toString n
  | .str s => "\"" ++ jsonEscape s ++ "\""
  | .arr xs => "[" ++ jsonDumpsList xs ++ "]"
  | .obj fs => "\x7b" ++ jsonDumpsFields fs ++ "\x7d"

/-- Python `json.dumps` of the elements of a list, comma separated. -/
def jsonDumpsList : List Json → String
  | [] => ""
  | [x] => jsonDumps x
  | x :: y :: rest => jsonDumps x ++ ", " ++ jsonDumpsList (y :: rest)

/-- Python `json.dumps` of the items of a dict, comma separated. -/
def jsonDumpsFields : List (String × Json) → String
  | [] => ""
  | [(k, v)] => "\"" ++ jsonEscape k ++ "\": " ++ jsonDumps v
  | (k, v) :: y :: rest =>
    "\"" ++ jsonEscape k ++ "\": " ++ jsonDumps v ++ ", " ++
      jsonDumpsFields (y :: rest)

end

/-- An entry dict as serialized by `json.dumps` (Python `None` becomes
`null`). -/
def entryDictToJson (d : EntryDict) : Json :=
  .obj (entryDictItems d)

/-- The results summary as serialized by `json.dumps` (a `None` dict key is
rendered as the key `"null"`). -/
def summaryToJson (s : ResultsSummary) : Json :=
  .obj
    [ ("total_entries", .num (Int.ofNat s.total_entries))
    , ("severity_counts",
        .obj (s.severity_counts.map fun p =>
          (match p.1 with | some k => k | none => "null",
            Json.num (Int.ofNat p.2))))
    , ("resource_types",
        .obj (s.resource_types.map fun p => (p.1, Json.num (Int.ofNat p.2))))
    , ("time_range",
        .obj [("earliest", .str s.earliest), ("latest", .str s.latest)]) ]

/-- The f-string analysis prompt of `analyze_results` (src/main.py:198-216),
over the summary and the first three entries (`results[:3]`). -/
def analysisPrompt (user_question : String) (summary : ResultsSummary)
    (samples : List EntryDict) : String :=
  "\n            Analyze these Google Cloud Logging query results and answer the user\x27s question.\n\n            User Question: " ++ user_question ++ "\n\n            Results Summary:\n            " ++ jsonDumps (summaryToJson summary) ++ "\n\n            Sample Log Entries:\n            " ++ jsonDumps (.arr (samples.map entryDictToJson)) ++ "\n\n            Please provide:\n            1. Direct answer to the user\x27s question\n            2. Key insights from the logs\n            3. Any patterns or trends noticed\n            4. Recommendations if applicable\n\n            Keep the response clear and actionable.\n            "

/-- Result of `analyze_results`: the returned string, the messages reported
through `st.error`, and the calls made to the generative-text service. -/
structure AnalyzeResult where
  output : String
  errors : List String
  calls : List GenAICall

/-- The method `GCPLoggingQueryApp.analyze_results` (src/main.py:166-223).  An empty
result list short-circuits to the fixed no-results string before any
service call; computing the summary on a list whose timestamps are all
empty raises `ValueError`; any caught exception reports a message and
returns the fixed string "Error analyzing results". -/
def analyze_results (env : GenAIEnv) (results : List EntryDict)
    (user_question gemini_api_key : String) : AnalyzeResult :=
  if results.isEmpty then ⟨"No results found for your query.", [], []⟩
  else
    match env.configure gemini_api_key with
    | .error m =>
      ⟨"Error analyzing results", ["Error analyzing results: " ++ m],
        [.configureCall gemini_api_key]⟩
    | .ok _ =>
      match env.getGenerativeModel "gemini-1.5-flash" with
      | .error m =>
        ⟨"Error analyzing results", ["Error analyzing results: " ++ m],
          [.configureCall gemini_api_key, .getModelCall "gemini-1.5-flash"]⟩
      | .ok model =>
        match results_summary results with
        | .error _ =>
          ⟨"Error analyzing results",
            ["Error analyzing results: min() arg is an empty sequence"],
            [.configureCall gemini_api_key, .getModelCall "gemini-1.5-flash"]⟩
        | .ok summary =>
          match env.generate_content model
              (analysisPrompt user_question summary (results.take 3)) with
          | .error m =>
            ⟨"Error analyzing results", ["Error analyzing results: " ++ m],
              [.configureCall gemini_api_key, .getModelCall "gemini-1.5-flash",
               .generateCall (analysisPrompt user_question summary (results.take 3))]⟩
          | .ok response =>
            ⟨response.text, [],
              [.configureCall gemini_api_key, .getModelCall "gemini-1.5-flash",
               .generateCall (analysisPrompt user_question summary (results.take 3))]⟩

instance {ε α : Type} [DecidableEq ε] [DecidableEq α] : DecidableEq (Except ε α) :=
  fun x y =>
    match x, y with
    | .ok a, .ok b =>
      if h : a = b then .isTrue (by rw [h])
      else .isFalse (fun hc => h (by cases hc; rfl))
    | .error a, .error b =>
      if h : a = b then .isTrue (by rw [h])
      else .isFalse (fun hc => h (by cases hc; rfl))
    | .ok _, .error _ => .isFalse (fun hc => by cases hc)
    | .error _, .ok _ => .isFalse (fun hc => by cases hc)

/-- A well-formed credentials object (all five required fields, string
values). -/
def jGoodCreds : Json :=
  .obj [("type", .str "service_account"), ("project_id", .str "proj-1"),
        ("client_id", .str "cid"), ("client_email", .str "sa@proj-1"),
        ("private_key", .str "key")]

/-- A credentials object missing four of the required fields. -/
def jMissingFields : List (String × Json) := [("type", .str "service_account")]

/-- A credentials object with all five fields present but a non-string
value for `type`. -/
def jNonStrFields : List (String × Json) :=
  [("type", .num 5), ("project_id", .str "proj-1"), ("client_id", .str "cid"),
   ("client_email", .str "sa@proj-1"), ("private_key", .str "key")]

/-- SDK environment on which every external call succeeds and parsing
yields the well-formed credentials. -/
def sdkEnvOk : SdkEnv :=
  { parseJson := fun _ => some jGoodCreds
  , from_service_account_info := fun j => .ok ⟨j⟩
  , mkClient := fun c p => .ok ⟨c, p⟩ }

/-- SDK environment on which parsing raises `JSONDecodeError`. -/
def sdkEnvBadJson : SdkEnv :=
  { sdkEnvOk with parseJson := fun _ => none }

/-- SDK environment on which parsing yields a credentials object with
missing fields. -/
def sdkEnvMissing : SdkEnv :=
  { sdkEnvOk with parseJson := fun _ => some (.obj jMissingFields) }

/-- SDK environment on which parsing yields a credentials object with a
non-string field value. -/
def sdkEnvNonStr : SdkEnv :=
  { sdkEnvOk with parseJson := fun _ => some (.obj jNonStrFields) }

/-- Generative-text environment on which every call succeeds. -/
def genEnvOk : GenAIEnv :=
  { configure := fun _ => .ok ()
  , getGenerativeModel := fun n => .ok ⟨n⟩
  , generate_content := fun _ _ => .ok ⟨"the analysis"⟩ }

/-- Generative-text environment on which `genai.configure` raises. -/
def genEnvConfigureFail : GenAIEnv :=
  { genEnvOk with configure := fun _ => .error "invalid api key" }

/-- A fully populated SDK log entry. -/
def entryFull : LogEntry :=
  { timestamp := some "2024-01-01T00:00:00+00:00"
  , severity := some "ERROR"
  , resource := some ⟨"gce_instance"⟩
  , log_name := "projects/p/logs/l"
  , payload := .dictP [("message", .str "boom")]
  , labels := some [("env", "prod")] }

/-- An SDK log entry whose `severity` attribute is `None`. -/
def entryNoSeverity : LogEntry :=
  { entryFull with severity := none }

/-- Log-query environment returning a single entry. -/
def logEnvOne : LoggingEnv := ⟨fun _ _ => .ok [entryFull]⟩

/-- Log-query environment returning no entries. -/
def logEnvEmpty : LoggingEnv := ⟨fun _ _ => .ok []⟩

/-- An app state whose logging client has been initialized. -/
def stWithClient : AppState :=
  { initState with logging_client := some ⟨⟨jGoodCreds⟩, .str "proj-1"⟩ }

/-- An entry dict with a non-empty timestamp. -/
def dictTsA : EntryDict :=
  { timestamp := "2024-01-01T00:00:00", severity := some "ERROR"
  , resource_type := "gce_instance", log_name := "projects/p/logs/l"
  , text_payload := .str "boom", json_payload := "", labels := "" }

/-- A later entry dict whose severity is Python `None`. -/
def dictTsB : EntryDict :=
  { dictTsA with timestamp := "2024-01-02T00:00:00", severity := none }

/-- An entry dict whose timestamp is the empty string. -/
def dictTsEmpty : EntryDict := { dictTsA with timestamp := "" }

/-- Whether a string is empty or blank (made of whitespace only). -/
def isBlankStr (s : String) : Bool :=
  s.toList.all fun c => c.isWhitespace

/-- The membership test either succeeds for every field or raises for every
field: whether it raises depends only on the shape of the parsed value. -/
theorem jsonContains_total (j : Json) (f g : String) (b : Bool)
    (h : jsonContains j f = Except.ok b) :
    ∃ b2, jsonContains j g = Except.ok b2 := by
  cases j with
  | obj fields => exact ⟨_, rfl⟩
  | arr xs => exact ⟨_, rfl⟩
  | str s => exact ⟨_, rfl⟩
  | num n => simp [jsonContains] at h
  | bool b3 => simp [jsonContains] at h
  | null => simp [jsonContains] at h

/-- If some field of the list fails the membership test (and no test
raises), the scan stops at the first such field. -/
theorem findMissingFieldAux_finds (j : Json) (l : List String)
    (hall : ∀ g, ∃ b, jsonContains j g = Except.ok b)
    (f : String) (hf : f ∈ l) (hmiss : jsonContains j f = Except.ok false) :
    ∃ f0, f0 ∈ l ∧ jsonContains j f0 = Except.ok false ∧
      findMissingFieldAux j l = Except.ok (some f0) := by
  induction l with
  | nil => cases hf
  | cons a rest ih =>
    obtain ⟨b, hb⟩ := hall a
    cases b with
    | false =>
      exact ⟨a, List.mem_cons_self a rest, hb,
        by simp [findMissingFieldAux, hb]⟩
    | true =>
      have hf2 : f ∈ rest := by
        rcases List.mem_cons.mp hf with h1 | h1
        · subst h1; rw [hb] at hmiss; simp at hmiss
        · exact h1
      obtain ⟨f0, h1, h2, h3⟩ := ih hf2
      exact ⟨f0, List.mem_cons_of_mem _ h1, h2,
        by simp [findMissingFieldAux, hb, h3]⟩

/-- If the scan reports no missing field, every field of the list passes
the membership test. -/
theorem findMissingFieldAux_mem_of_none (j : Json) (l : List String)
    (h : findMissingFieldAux j l = Except.ok none) :
    ∀ f ∈ l, jsonContains j f = Except.ok true := by
  induction l with
  | nil => intro f hf; cases hf
  | cons a rest ih =>
    rw [findMissingFieldAux] at h
    intro f hf
    cases hc : jsonContains j a with
    | error m => rw [hc] at h; simp at h
    | ok b =>
      cases b with
      | false => rw [hc] at h; simp at h
      | true =>
        rw [hc] at h
        rcases List.mem_cons.mp hf with h1 | h1
        · subst h1; exact hc
        · exact ih h f h1

/-- If every field of the list passes the membership test, the scan reports
no missing field. -/
theorem findMissingFieldAux_none_of_all (j : Json) (l : List String)
    (h : ∀ f ∈ l, jsonContains j f = Except.ok true) :
    findMissingFieldAux j l = Except.ok none := by
  induction l with
  | nil => rfl
  | cons a rest ih =>
    rw [findMissingFieldAux, h a (List.mem_cons_self a rest)]
    exact ih fun f hf => h f (List.mem_cons_of_mem a hf)

/-- Every run of `validate_and_set_credentials` either returns `True` with
no report, or returns `False` having reported exactly one message. -/
theorem validate_run_shape (env : SdkEnv) (st : AppState) (s : String) :
    ((validate_and_set_credentials env st s).ok = true ∧
      (validate_and_set_credentials env st s).errors = []) ∨
    ((validate_and_set_credentials env st s).ok = false ∧
      ∃ m, (validate_and_set_credentials env st s).errors = [m]) := by
  unfold validate_and_set_credentials
  repeat' split
  all_goals first
    | exact Or.inl ⟨rfl, rfl⟩
    | exact Or.inr ⟨rfl, _, rfl⟩

/-- Every run of `generate_logging_query` either reports nothing, or
returns the empty string having reported exactly one message. -/
theorem generate_run_shape (env : GenAIEnv) (q k : String) :
    (generate_logging_query env q k).errors = [] ∨
    ((generate_logging_query env q k).text = "" ∧
      ∃ m, (generate_logging_query env q k).errors = [m]) := by
  unfold generate_logging_query
  repeat' split
  all_goals first
    | exact Or.inl rfl
    | exact Or.inr ⟨rfl, _, rfl⟩

/-- Every run of `analyze_results` either reports nothing, or returns the
fixed string "Error analyzing results" having reported exactly one
message. -/
theorem analyze_run_shape (env : GenAIEnv) (rs : List EntryDict)
    (q k : String) :
    (analyze_results env rs q k).errors = [] ∨
    ((analyze_results env rs q k).output = "Error analyzing results" ∧
      ∃ m, (analyze_results env rs q k).errors = [m]) := by
  unfold analyze_results
  repeat' split
  all_goals first
    | exact Or.inl rfl
    | exact Or.inr ⟨rfl, _, rfl⟩

/-- One upsert step grows the total of a counts dict by one. -/
theorem countsSum_upsert {α : Type} [DecidableEq α] (key : α)
    (l : List (α × Nat)) :
    countsSum (countsUpsert key l) = countsSum l + 1 := by
  induction l with
  | nil => rfl
  | cons p rest ih =>
    obtain ⟨k, n⟩ := p
    by_cases hk : k = key
    · simp [countsUpsert, hk, countsSum]
      omega
    · simp only [countsUpsert, if_neg hk, countsSum, List.map_cons,
        List.sum_cons] at ih ⊢
      omega

/-- Folding the counting step over a list grows the total of the counts
dict by the length of the list. -/
theorem countsSum_foldl {α : Type} [DecidableEq α] (keyOf : EntryDict → α)
    (rs : List EntryDict) (init : List (α × Nat)) :
    countsSum (rs.foldl (fun acc r => countsUpsert (keyOf r) acc) init) =
      countsSum init + rs.length := by
  induction rs generalizing init with
  | nil => simp
  | cons r rest ih =>
    simp only [List.foldl_cons, List.length_cons]
    rw [ih, countsSum_upsert]
    omega

/-- The severity counts of a result list total its length. -/
theorem countsSum_severityCounts (rs : List EntryDict) :
    countsSum (severityCounts rs) = rs.length := by
  have h := countsSum_foldl (fun r => r.severity) rs []
  simpa [severityCounts, countsSum] using h

/-- The resource-type counts of a result list total its length. -/
theorem countsSum_resourceTypeCounts (rs : List EntryDict) :
    countsSum (resourceTypeCounts rs) = rs.length := by
  have h := countsSum_foldl (fun r => r.resource_type) rs []
  simpa [resourceTypeCounts, countsSum] using h

/-- A fold of `min` never exceeds a fold of `max`, from pointwise-ordered
seeds. -/
theorem foldl_min_le_foldl_max {α : Type} [LinearOrder α] (xs : List α)
    (a b : α) (hab : a ≤ b) : xs.foldl min a ≤ xs.foldl max b := by
  induction xs generalizing a b with
  | nil => exact hab
  | cons x rest ih =>
    simp only [List.foldl_cons]
    exact ih _ _ ((min_le_left a x).trans (hab.trans (le_max_left b x)))

/-- Evaluation of `validate_and_set_credentials` on a string that does not
parse. -/
theorem validate_eq_badjson (env : SdkEnv) (st : AppState) (s : String)
    (hp : env.parseJson s = none) :
    validate_and_set_credentials env st s =
      ⟨st, false, ["Invalid JSON format in credentials"]⟩ := by
  unfold validate_and_set_credentials
  rw [hp]

/-- Evaluation of `validate_and_set_credentials` when the required-field
scan reports a missing field. -/
theorem validate_eq_missing (env : SdkEnv) (st : AppState) (s : String)
    (j : Json) (f0 : String) (hp : env.parseJson s = some j)
    (hfm : findMissingField j = Except.ok (some f0)) :
    validate_and_set_credentials env st s =
      ⟨st, false, ["Missing required field: " ++ f0]⟩ := by
  unfold validate_and_set_credentials
  rw [hp]
  simp only [hfm]

/-- Evaluation of `validate_and_set_credentials` on the all-success path. -/
theorem validate_eq_success (env : SdkEnv) (st : AppState) (s : String)
    (j : Json) (pid : Json) (creds : SACredentials) (client : LoggingClient)
    (hp : env.parseJson s = some j)
    (hfm : findMissingField j = Except.ok none)
    (hcreds : env.from_service_account_info j = Except.ok creds)
    (hidx : jsonIndex j "project_id" = Except.ok pid)
    (hclient : env.mkClient creds pid = Except.ok client) :
    validate_and_set_credentials env st s =
      ⟨{ st with credentials := some creds, project_id := some pid, logging_client := some client }, true, []⟩ := by
  unfold validate_and_set_credentials
  rw [hp]
  simp only [hfm, hcreds, hidx, hclient]

/-- C2: for every credentials string that parses as JSON but lacks at least
one of the five required fields, `validate_and_set_credentials` returns
`False` and reports a message naming a missing field. -/
theorem claim_C2 (env : SdkEnv) (st : AppState) (s : String) (j : Json)
    (f : String) (hf : f ∈ required_fields)
    (hp : env.parseJson s = some j)
    (hmiss : jsonContains j f = Except.ok false) :
    (validate_and_set_credentials env st s).ok = false ∧
      ∃ f0 ∈ required_fields, jsonContains j f0 = Except.ok false ∧
        (validate_and_set_credentials env st s).errors =
          ["Missing required field: " ++ f0] := by
  have htotal : ∀ g, ∃ b, jsonContains j g = Except.ok b :=
    fun g => jsonContains_total j f g false hmiss
  obtain ⟨f0, h1, h2, h3⟩ :=
    findMissingFieldAux_finds j required_fields htotal f hf hmiss
  rw [validate_eq_missing env st s j f0 hp h3]
  exact ⟨rfl, f0, h1, h2, rfl⟩

/-- Witness for C2: a credentials object holding only `type` is rejected
with a message naming `project_id`. -/
theorem claim_C2_witness :
    (validate_and_set_credentials sdkEnvMissing initState "x").ok = false ∧
      ∃ f0 ∈ required_fields,
        jsonContains (.obj jMissingFields) f0 = Except.ok false ∧
        (validate_and_set_credentials sdkEnvMissing initState "x").errors =
          ["Missing required field: " ++ f0] :=
  claim_C2 sdkEnvMissing initState "x" (.obj jMissingFields) "project_id"
    (by decide) rfl (by decide)

/-- C4: for every credentials string parsing to a JSON object that holds
all five required fields, if neither SDK constructor raises then
`validate_and_set_credentials` returns `True` and sets `project_id` to the
object's `project_id` value. -/
theorem claim_C4 (env : SdkEnv) (st : AppState) (s : String)
    (fields : List (String × Json)) (pid : Json) (creds : SACredentials)
    (client : LoggingClient)
    (hp : env.parseJson s = some (Json.obj fields))
    (hall : ∀ f ∈ required_fields,
      jsonContains (Json.obj fields) f = Except.ok true)
    (hpid : assocLookup "project_id" fields = some pid)
    (hcreds : env.from_service_account_info (Json.obj fields) =
      Except.ok creds)
    (hclient : env.mkClient creds pid = Except.ok client) :
    (validate_and_set_credentials env st s).ok = true ∧
      (validate_and_set_credentials env st s).state.project_id = some pid := by
  have hfm : findMissingField (Json.obj fields) = Except.ok none :=
    findMissingFieldAux_none_of_all _ _ hall
  have hidx : jsonIndex (Json.obj fields) "project_id" = Except.ok pid := by
    simp [jsonIndex, hpid]
  rw [validate_eq_success env st s (Json.obj fields) pid creds client hp hfm
    hcreds hidx hclient]
  exact ⟨rfl, rfl⟩

/-- Witness for C4: the well-formed credentials object is accepted and the
project id is set to its `project_id` value. -/
theorem claim_C4_witness :
    (validate_and_set_credentials sdkEnvOk initState "creds").ok = true ∧
      (validate_and_set_credentials sdkEnvOk initState "creds").state.project_id =
        some (.str "proj-1") :=
  claim_C4 sdkEnvOk initState "creds"
    [("type", .str "service_account"), ("project_id", .str "proj-1"),
     ("client_id", .str "cid"), ("client_email", .str "sa@proj-1"),
     ("private_key", .str "key")]
    (.str "proj-1") ⟨jGoodCreds⟩ ⟨⟨jGoodCreds⟩, .str "proj-1"⟩
    rfl (by decide) rfl rfl rfl

/-- C10: when validation fails before any SDK object is constructed (the
string does not parse, or a required field is missing), the object's state
is unchanged and the call returns `False`. -/
theorem claim_C10 (env : SdkEnv) (st : AppState) (s : String)
    (h : env.parseJson s = none ∨
      ∃ j f, env.parseJson s = some j ∧
        findMissingField j = Except.ok (some f)) :
    (validate_and_set_credentials env st s).state = st ∧
      (validate_and_set_credentials env st s).ok = false := by
  rcases h with h | ⟨j, f, hp, hm⟩
  · rw [validate_eq_badjson env st s h]
    exact ⟨rfl, rfl⟩
  · rw [validate_eq_missing env st s j f hp hm]
    exact ⟨rfl, rfl⟩

/-- Witness for C10: a string that fails to parse leaves the freshly
initialized state unchanged. -/
theorem claim_C10_witness :
    (validate_and_set_credentials sdkEnvBadJson initState "oops").state =
        initState ∧
      (validate_and_set_credentials sdkEnvBadJson initState "oops").ok =
        false :=
  claim_C10 sdkEnvBadJson initState "oops" (Or.inl rfl)

/-- C8 as stated is false: acceptance does not guarantee that the required
fields hold string values, because the code checks key presence only.  A
credentials object whose `type` value is the number 5 is accepted when the
SDK constructors do not raise. -/
theorem claim_C8_counterexample :
    ¬ (∀ (env : SdkEnv) (st : AppState) (s : String)
        (fields : List (String × Json)),
        env.parseJson s = some (Json.obj fields) →
        (validate_and_set_credentials env st s).ok = true →
        ∀ f ∈ required_fields,
          ∃ v, assocLookup f fields = some v ∧ jsonIsStr v = true) := by
  intro h
  obtain ⟨v, hv, hstr⟩ :=
    h sdkEnvNonStr initState "x" jNonStrFields rfl (by decide) "type"
      (by decide)
  rw [show assocLookup "type" jNonStrFields = some (Json.num 5) from rfl]
    at hv
  injection hv with hv2
  rw [← hv2] at hstr
  exact Bool.noConfusion hstr

/-- C8 amended: every credentials string accepted by
`validate_and_set_credentials` parses to a JSON object in which all five
required fields are present as keys; their values are not checked to be
strings. -/
theorem claim_C8_amended (env : SdkEnv) (st : AppState) (s : String)
    (h : (validate_and_set_credentials env st s).ok = true) :
    ∃ fields, env.parseJson s = some (Json.obj fields) ∧
      ∀ f ∈ required_fields, (assocLookup f fields).isSome = true := by
  unfold validate_and_set_credentials at h
  cases hp : env.parseJson s with
  | none => simp [hp] at h
  | some j =>
    cases hm : findMissingField j with
    | error m => simp [hp, hm] at h
    | ok o =>
      cases o with
      | some f => simp [hp, hm] at h
      | none =>
        cases hc : env.from_service_account_info j with
        | error m => simp [hp, hm, hc] at h
        | ok creds =>
          cases hi : jsonIndex j "project_id" with
          | error m => simp [hp, hm, hc, hi] at h
          | ok pid =>
            cases j with
            | obj fields =>
              refine ⟨fields, rfl, fun f hf => ?_⟩
              have hcont := findMissingFieldAux_mem_of_none _ _ hm f hf
              simpa [jsonContains] using hcont
            | null => simp [jsonIndex] at hi
            | bool b => simp [jsonIndex] at hi
            | num n => simp [jsonIndex] at hi
            | str s2 => simp [jsonIndex] at hi
            | arr xs => simp [jsonIndex] at hi

/-- Witness for amended C8: the accepted well-formed credentials object has
all five required keys present. -/
theorem claim_C8_witness :
    ∃ fields, sdkEnvOk.parseJson "creds" = some (Json.obj fields) ∧
      ∀ f ∈ required_fields, (assocLookup f fields).isSome = true :=
  claim_C8_amended sdkEnvOk initState "creds" (by decide)

/-- C1 as stated is false: on its failure path `analyze_results` does not
degrade to an empty/blank result but returns the fixed non-empty string
"Error analyzing results", e.g. when `genai.configure` raises on a
non-empty result list. -/
theorem claim_C1_counterexample :
    ¬ ((∀ (env : SdkEnv) (st : AppState) (s : String),
          (validate_and_set_credentials env st s).ok = false →
          (validate_and_set_credentials env st s).errors ≠ []) ∧
       (∀ (env : GenAIEnv) (q k : String),
          (generate_logging_query env q k).errors ≠ [] →
          (generate_logging_query env q k).text = "") ∧
       (∀ (env : GenAIEnv) (rs : List EntryDict) (q k : String),
          (analyze_results env rs q k).errors ≠ [] →
          isBlankStr (analyze_results env rs q k).output = true)) := by
  intro h
  have h3 := h.2.2 genEnvConfigureFail [dictTsA] "q" "k" (by decide)
  exact absurd h3 (by decide)

/-- C1 amended: every failure path reports a message; on failure
`validate_and_set_credentials` returns `False`, `generate_logging_query`
returns the empty string, and `analyze_results` returns the fixed non-empty
string "Error analyzing results" (not an empty/blank result). -/
theorem claim_C1_amended :
    (∀ (env : SdkEnv) (st : AppState) (s : String),
        (validate_and_set_credentials env st s).ok = false →
        (validate_and_set_credentials env st s).errors ≠ []) ∧
    (∀ (env : GenAIEnv) (q k : String),
        (generate_logging_query env q k).errors ≠ [] →
        (generate_logging_query env q k).text = "") ∧
    (∀ (env : GenAIEnv) (rs : List EntryDict) (q k : String),
        (analyze_results env rs q k).errors ≠ [] →
        (analyze_results env rs q k).output = "Error analyzing results") := by
  refine ⟨fun env st s h => ?_, fun env q k h => ?_, fun env rs q k h => ?_⟩
  · rcases validate_run_shape env st s with ⟨h1, _⟩ | ⟨_, m, hm⟩
    · rw [h1] at h; exact Bool.noConfusion h
    · rw [hm]; exact fun hc => List.noConfusion hc
  · rcases generate_run_shape env q k with h1 | ⟨ht, _⟩
    · exact absurd h1 h
    · exact ht
  · rcases analyze_run_shape env rs q k with h1 | ⟨ho, _⟩
    · exact absurd h1 h
    · exact ho

/-- Witness for amended C1: concrete failing runs of each of the three
methods. -/
theorem claim_C1_witness :
    ((validate_and_set_credentials sdkEnvBadJson initState "oops").errors ≠
        []) ∧
      (generate_logging_query genEnvConfigureFail "q" "k").text = "" ∧
      (analyze_results genEnvConfigureFail [dictTsA] "q" "k").output =
        "Error analyzing results" :=
  ⟨claim_C1_amended.1 sdkEnvBadJson initState "oops" (by decide),
    claim_C1_amended.2.1 genEnvConfigureFail "q" "k" (by decide),
    claim_C1_amended.2.2 genEnvConfigureFail [dictTsA] "q" "k" (by decide)⟩

/-- C3: on an empty result list `analyze_results` returns the fixed
no-results string, reports nothing, and makes no call to the
generative-text service, whatever the question and API key. -/
theorem claim_C3 (env : GenAIEnv) (user_question gemini_api_key : String) :
    analyze_results env [] user_question gemini_api_key =
      ⟨"No results found for your query.", [], []⟩ := rfl

/-- C9: with an uninitialized logging client, `execute_logging_query`
reports an error and returns the empty list, making no call to the
log-query service and leaving `my_dict.csv` untouched. -/
theorem claim_C9 (env : LoggingEnv) (st : AppState) (q : String) (n : Nat)
    (h : st.logging_client = none) :
    execute_logging_query env st q n =
      ⟨[], ["Logging client not initialized"], .untouched, []⟩ := by
  unfold execute_logging_query
  rw [h]

/-- Witness for C9: a freshly initialized app ignores the file and the
service. -/
theorem claim_C9_witness :
    execute_logging_query logEnvOne initState "q" 100 =
      ⟨[], ["Logging client not initialized"], .untouched, []⟩ :=
  claim_C9 logEnvOne initState "q" 100 rfl

/-- C5 as stated is false: a call made before the client is initialized (or
whose query raises) returns without opening `my_dict.csv`, so not every
call overwrites the file. -/
theorem claim_C5_counterexample :
    ¬ (∀ (env : LoggingEnv) (st : AppState) (q : String) (n : Nat),
        ((execute_logging_query env st q n).results = [] →
          (execute_logging_query env st q n).file = .overwritten []) ∧
        ((execute_logging_query env st q n).results ≠ [] →
          (execute_logging_query env st q n).file =
            .overwritten (fieldnames ::
              (execute_logging_query env st q n).results.map csvRow))) := by
  intro h
  have h1 := (h logEnvOne initState "q" 100).1 rfl
  exact CsvFile.noConfusion h1

/-- C5 amended: every call that reaches the save step (the client is
initialized and the query call does not raise) opens `my_dict.csv` in write
mode, discarding previous contents; with a non-empty result list it writes
the header row followed by one row per entry, and with an empty list it
leaves the file truncated to empty. -/
theorem claim_C5_amended (env : LoggingEnv) (st : AppState) (q : String)
    (n : Nat) (c : LoggingClient) (entries : List LogEntry)
    (results : List EntryDict)
    (hc : st.logging_client = some c)
    (hq : env.list_entries q n = Except.ok entries)
    (hres : entries.map entryToDict = results) :
    (execute_logging_query env st q n).results = results ∧
      (results = [] →
        (execute_logging_query env st q n).file = .overwritten []) ∧
      (results ≠ [] →
        (execute_logging_query env st q n).file =
          .overwritten (fieldnames :: results.map csvRow)) := by
  unfold execute_logging_query
  simp only [hc, hq]
  rw [hres]
  cases results with
  | nil => exact ⟨rfl, fun _ => rfl, fun hne => absurd rfl hne⟩
  | cons r rs => exact ⟨rfl, fun he => List.noConfusion he, fun _ => rfl⟩

/-- Witness for amended C5: one fetched entry produces a header row and one
data row. -/
theorem claim_C5_witness :
    (execute_logging_query logEnvOne stWithClient "q" 100).results =
        [entryToDict entryFull] ∧
      ([entryToDict entryFull] = ([] : List EntryDict) →
        (execute_logging_query logEnvOne stWithClient "q" 100).file =
          .overwritten []) ∧
      ([entryToDict entryFull] ≠ ([] : List EntryDict) →
        (execute_logging_query logEnvOne stWithClient "q" 100).file =
          .overwritten (fieldnames :: [entryToDict entryFull].map csvRow)) :=
  claim_C5_amended logEnvOne stWithClient "q" 100
    ⟨⟨jGoodCreds⟩, .str "proj-1"⟩ [entryFull] [entryToDict entryFull]
    rfl rfl rfl

/-- C6 as stated is false: the severity value is copied raw off the SDK
entry, so an entry whose severity is `None` yields a record whose
`severity` value is not a string. -/
theorem claim_C6_counterexample :
    ¬ (∀ entry : LogEntry,
        (entryDictItems (entryToDict entry)).map Prod.fst = fieldnames ∧
        ∀ kv ∈ entryDictItems (entryToDict entry), jsonIsStr kv.2 = true) := by
  intro h
  have h2 := (h entryNoSeverity).2 ("severity", Json.null)
    (List.mem_cons_of_mem _ (List.mem_cons_self _ _))
  exact Bool.noConfusion h2

/-- The `text_payload` value of a converted entry, by payload shape. -/
theorem text_payload_eq (entry : LogEntry) :
    (entryToDict entry).text_payload =
      (match entry.payload with
        | .dictP fields =>
          (match assocLookup "message" fields with
            | some v => v
            | none => Json.str "")
        | .strP s => Json.str s
        | .nullP => Json.str "None") := rfl

/-- C6 amended: the record always has exactly the seven fields in source
order; the five values other than `severity` and `text_payload` are always
strings; `severity` is copied raw and is a string exactly when the SDK
entry carries one; `text_payload` is a string unless the payload is a dict
whose `message` value is a non-string. -/
theorem claim_C6_amended (entry : LogEntry) :
    (entryDictItems (entryToDict entry)).map Prod.fst = fieldnames ∧
    (∀ kv ∈ entryDictItems (entryToDict entry),
      kv.1 ≠ "severity" → kv.1 ≠ "text_payload" → jsonIsStr kv.2 = true) ∧
    (entryToDict entry).severity = entry.severity ∧
    (∀ s2, entry.severity = some s2 →
      ∀ kv ∈ entryDictItems (entryToDict entry), kv.1 = "severity" →
        jsonIsStr kv.2 = true) ∧
    (payloadMessageIsStr entry.payload = true →
      jsonIsStr (entryToDict entry).text_payload = true) := by
  refine ⟨rfl, ?_, rfl, ?_, ?_⟩
  · intro kv hkv h1 h2
    simp only [entryDictItems, List.mem_cons, List.not_mem_nil, or_false]
      at hkv
    rcases hkv with rfl | rfl | rfl | rfl | rfl | rfl | rfl
    · rfl
    · exact absurd rfl h1
    · rfl
    · rfl
    · exact absurd rfl h2
    · rfl
    · rfl
  · intro s2 hs kv hkv hk
    simp only [entryDictItems, List.mem_cons, List.not_mem_nil, or_false]
      at hkv
    rcases hkv with rfl | rfl | rfl | rfl | rfl | rfl | rfl
    · simp at hk
    · rw [show (entryToDict entry).severity = entry.severity from rfl, hs]
      rfl
    · simp at hk
    · simp at hk
    · simp at hk
    · simp at hk
    · simp at hk
  · intro hp
    cases hpay : entry.payload with
    | dictP fields =>
      cases hl : assocLookup "message" fields with
      | some v =>
        have hv : (entryToDict entry).text_payload = v := by
          simp [entryToDict, hpay, hl]
        have hpv : jsonIsStr v = true := by
          simpa [payloadMessageIsStr, hpay, hl] using hp
        rw [hv]; exact hpv
      | none =>
        have hv : (entryToDict entry).text_payload = Json.str "" := by
          simp [entryToDict, hpay, hl]
        rw [hv]; rfl
    | strP s2 =>
      have hv : (entryToDict entry).text_payload = Json.str s2 := by
        simp [entryToDict, hpay]
      rw [hv]; rfl
    | nullP =>
      have hv : (entryToDict entry).text_payload = Json.str "None" := by
        simp [entryToDict, hpay]
      rw [hv]; rfl

/-- Witness for amended C6: a fully populated entry has the seven keys and
a string `text_payload`. -/
theorem claim_C6_witness :
    (entryDictItems (entryToDict entryFull)).map Prod.fst = fieldnames ∧
      jsonIsStr (entryToDict entryFull).text_payload = true :=
  ⟨(claim_C6_amended entryFull).1,
    (claim_C6_amended entryFull).2.2.2.2 (by decide)⟩

/-- C7 as stated is false: the `min`/`max` computations skip entries whose
timestamp is empty and raise `ValueError` when every timestamp is empty, so
on such a non-empty list no summary record is built at all. -/
theorem claim_C7_counterexample :
    ¬ (∀ rs : List EntryDict, rs ≠ [] →
        ∃ s, results_summary rs = Except.ok s ∧
          s.total_entries = rs.length ∧
          countsSum s.severity_counts = rs.length ∧
          countsSum s.resource_types = rs.length ∧
          listMin (rs.map EntryDict.timestamp) = some s.earliest ∧
          listMax (rs.map EntryDict.timestamp) = some s.latest ∧
          s.earliest ≤ s.latest) := by
  intro h
  obtain ⟨s, hs, _⟩ := h [dictTsEmpty] (fun hc => List.noConfusion hc)
  rw [show results_summary [dictTsEmpty] = Except.error () from rfl] at hs
  exact Except.noConfusion hs

/-- C7 amended: on every non-empty result list with at least one non-empty
timestamp, the summary is built; its `total_entries` is the length of the
list, its severity and resource-type counts each total that length, and its
time range holds the minimum and maximum of the non-empty timestamps, with
earliest at most latest. -/
theorem claim_C7_amended (rs : List EntryDict) (hne : rs ≠ [])
    (hts : nonEmptyTimestamps rs ≠ []) :
    ∃ s, results_summary rs = Except.ok s ∧
      s.total_entries = rs.length ∧
      countsSum s.severity_counts = rs.length ∧
      countsSum s.resource_types = rs.length ∧
      listMin (nonEmptyTimestamps rs) = some s.earliest ∧
      listMax (nonEmptyTimestamps rs) = some s.latest ∧
      s.earliest ≤ s.latest := by
  cases hl : nonEmptyTimestamps rs with
  | nil => exact absurd hl hts
  | cons t ts =>
    refine ⟨⟨rs.length, severityCounts rs, resourceTypeCounts rs,
      ts.foldl min t, ts.foldl max t⟩, ?_, rfl,
      countsSum_severityCounts rs, countsSum_resourceTypeCounts rs,
      ?_, ?_, foldl_min_le_foldl_max ts t t le_rfl⟩
    · unfold results_summary
      rw [hl]
    · rfl
    · rfl

/-- Witness for amended C7: a two-entry list with distinct timestamps. -/
theorem claim_C7_witness :
    ∃ s, results_summary [dictTsA, dictTsB] = Except.ok s ∧
      s.total_entries = [dictTsA, dictTsB].length ∧
      countsSum s.severity_counts = [dictTsA, dictTsB].length ∧
      countsSum s.resource_types = [dictTsA, dictTsB].length ∧
      listMin (nonEmptyTimestamps [dictTsA, dictTsB]) = some s.earliest ∧
      listMax (nonEmptyTimestamps [dictTsA, dictTsB]) = some s.latest ∧
      s.earliest ≤ s.latest :=
  claim_C7_amended [dictTsA, dictTsB] (fun hc => List.noConfusion hc)
    (by decide)
